import Mathlib

/-
Verification development for the pzp-hardware repository: shallow embedding of
the hardware-facing control flow of the Piece adapter classes, with theorems
about the debug-mode behaviour, the hardware sequencing rules, and the
connection-guard error handling.

Conventions of the embedding:
* Every hardware interaction (vendor SDK call, serial-port write/read, HTTP
  request) is recorded as an `HWEvent` in an explicit trace.
* Python exceptions are `Except String` results; a raised exception aborts the
  rest of the function, exactly as in the source.
* The host framework (puzzlepiece) semantics used by the source are embedded
  explicitly where they matter: an `ensurer` decorator runs its check before
  the wrapped function (decorators applied bottom-up), and the framework-level
  `set_value` stores the setter's return value, or, when the setter returns
  `None`, calls the registered getter and stores its result (this convention
  is documented in src/pzp_hardware/thorlabs/powermeter.py lines 115-116:
  "Don't return a value, so that the getter gets called to double-check").
* numpy float samples are modelled as opaque `Nat` codes drawn from an
  explicit stream standing for NumPy's global random generator; GUI float
  spinbox values are modelled at `Int` precision, which is enough for every
  claim considered here.
-/

namespace PzpHardware

/-- The alphabet of hardware interactions recorded by the embedding. -/
inductive HWEvent where
  /-- `self.experiment.Stop()` (princeton/lightfield.py). -/
  | lfStop : HWEvent
  /-- one read of `self.experiment.IsRunning` in a wait loop, with the value observed. -/
  | lfPollRunning : Bool → HWEvent
  /-- `self.experiment.SetValue(CameraSettings.ShutterTimingExposureTime, v)`. -/
  | lfSetValue : Int → HWEvent
  /-- `self.experiment.SetValue(...BackgroundCorrectionReferenceFile, ".../{v}.spe")` in `set_bgfile`. -/
  | lfSetBgFile : Int → HWEvent
  /-- `self.experiment.GetValue(CameraSettings.ShutterTimingExposureTime)`. -/
  | lfGetValue : HWEvent
  /-- `self.camera.arm(...)` (thorlabs/camera.py). -/
  | camArm : HWEvent
  /-- `self.camera.disarm()`. -/
  | camDisarm : HWEvent
  /-- the assignment `self.camera.roi = value`. -/
  | camAssignRoi : List Int → HWEvent
  /-- the read `self.camera.roi`. -/
  | camReadRoi : HWEvent
  /-- the assignment `self.camera.exposure_time_us = int(value*1000)`. -/
  | camSetExposure : Int → HWEvent
  /-- the read `self.camera.exposure_time_us`. -/
  | camReadExposure : HWEvent
  /-- `PZMOT_SetChannel(serial, i)` with the error code it returned (thorlabs/apt_piezo.py). -/
  | aptSetChannel : Int → Int → HWEvent
  /-- `PZMOT_MoveAbsoluteStepsEx(serial, value, True)` with its error code. -/
  | aptMoveAbs : Int → Int → HWEvent
  /-- `PZMOT_GetPositionSteps(serial, byref(pos))` with its error code. -/
  | aptGetPos : Int → HWEvent
  /-- `self.port.write(bytes)` on the pySerial port (generic/hw_bases/serial.py users). -/
  | serialWrite : String → HWEvent
  /-- `self.port.read_until(b'\x5cr')`. -/
  | serialReadUntil : HWEvent
  /-- `self.spec.spectrum()` (oceanoptics/spectrometer.py). -/
  | specSpectrum : HWEvent
  /-- an operation on `self.slm.window()` (holoeye/slm.py), tagged with the method name. -/
  | slmWindowOp : String → HWEvent
  /-- `tlPM.close()` (thorlabs/powermeter.py). -/
  | pmClose : HWEvent
  /-- `self.tlPM.open(resourceName, True, True)` with the result it produced. -/
  | pmOpen : Int → HWEvent
  /-- `self.motor.move_home(blocking=True)` (thorlabs/apt_stage.py). -/
  | motorMoveHome : HWEvent
  deriving DecidableEq, Repr

/-! ### generic/hw_bases/http.py -/

/-- The fields of a `requests` response that `check_response` inspects. -/
structure HTTPResponse where
  status_code : Int
  text : String
  deriving DecidableEq, Repr

/-- `http.Base.check_response` (generic/hw_bases/http.py lines 72-79):
`if not r.status_code == 200: raise Exception(f"Error ({r.status_code}) in HTTP request: {r.text}")`.
The method reads two fields of `r` and touches no other state. -/
def check_response (r : HTTPResponse) : Except String Unit :=
  if ¬(r.status_code = 200) then
    .error ("Error (" ++ toString r.status_code ++ ") in HTTP request: " ++ r.text)
  else
    .ok ()

/-! ### thorlabs/shutter_sc10.py (and the identical thorlabs/shutter.py) -/

/-- The state of the shutter controller on the other end of the serial port:
whether the shutter is enabled (open). The `ens?` query reports it and the
`ens` command toggles it. -/
structure SC10Device where
  enabled : Bool
  deriving DecidableEq, Repr

/-- The serial-port side of `get_state` (shutter_sc10.py lines 47-50):
`self.port.write(b'ens?\x5cr'); self.port.read_until(b'\x5cr'); int(self.port.read_until(b'\x5cr')[0]) - 48`.
The device echoes the command and then reports `1` or `0`. -/
def sc10GetStateTrace : List HWEvent :=
  [.serialWrite "ens?\r", .serialReadUntil, .serialReadUntil]

/-- The `open` param setter of the SC10 shutter Piece (shutter_sc10.py lines 52-65),
with its `@self._ensure` guard (generic/hw_bases/serial.py lines 88-93).
`portIsOpen` stands for `hasattr(self, 'port') and self.port.is_open`.
Returns (setter result, device state after, serial trace). -/
def sc10OpenSet (debug portIsOpen : Bool) (dev : SC10Device) (value : Bool) :
    Except String Bool × SC10Device × List HWEvent :=
  -- _ensure: in non-debug mode, raise unless the port is open
  if ¬debug ∧ ¬portIsOpen then (.error "Shutter not connected", dev, [])
  else if debug then
    -- if self.puzzle.debug: return value
    (.ok value, dev, [])
  else
    -- open = get_state()
    let st := dev.enabled
    if st = value then
      -- if open == value: return value
      (.ok value, dev, sc10GetStateTrace)
    else
      -- else: self.port.write(b'ens\x5cr'); self.port.read_until(b'\x5cr'); return value
      (.ok value, { dev with enabled := ¬dev.enabled },
        sc10GetStateTrace ++ [.serialWrite "ens\r", .serialReadUntil])

/-! ### thorlabs/powermeter.py -/

/-- The connection-relevant state of the powermeter Piece: whether the
`tlPM` attribute exists (`hasattr(self, "tlPM")`, the condition `_ensure`
checks, powermeter.py lines 179-183). -/
structure PMPiece where
  hasTlPM : Bool
  deriving DecidableEq, Repr

/-- The `connect` param setter of the powermeter Piece (powermeter.py lines 78-98).
`openResult` is what `self.tlPM.open(resourceName, True, True)` produces: `0`
on success, and any nonzero code for a failed open (a raised `NameError` is
caught and stored in `result`, so it also lands in the truthy branch).
Returns (setter result, piece state after, trace). -/
def pmConnect (debug : Bool) (p : PMPiece) (openResult : Int) :
    Except String Int × PMPiece × List HWEvent :=
  if debug then (.ok 1, p, [])
  else
    -- if self._ensure(capture_exception=True): self.tlPM.close()
    let t0 : List HWEvent := if p.hasTlPM then [.pmClose] else []
    -- self.tlPM = self._TLPM_class(); result = self.tlPM.open(...)
    let t1 := t0 ++ [.pmOpen openResult]
    if openResult ≠ 0 then
      -- if result: self.tlPM.close(); del self.tlPM; raise Exception(...)
      (.error ("Powermeter init failed with code " ++ toString openResult),
        ⟨false⟩, t1 ++ [.pmClose])
    else
      -- return 1
      (.ok 1, ⟨true⟩, t1)

/-! ### princeton/lightfield.py -/

/-- Hardware-side state of the LightField `self.experiment` object.
`stopDelay` encodes how many polls of `experiment.IsRunning` still observe
`True` after `experiment.Stop()` has been issued (the acquisition takes some
real time to wind down; the Python wait loop sleeps 0.1 s between polls). -/
structure Experiment where
  running : Bool
  stopDelay : Nat
  exposure : Int
  /-- `experiment.IsReadyToRun` after `set_bgfile` has pointed the background
  correction at the file for the new exposure value. -/
  bgFileOk : Bool
  deriving DecidableEq, Repr

/-- Piece-side state of the Lightfield Piece: whether `Launch` has been run
(`hasattr(self, 'automation')`, checked by `_ensure`, lightfield.py lines
213-216), and the stored value of the `integration` param. -/
structure LFPiece where
  launched : Bool
  integrationValue : Int
  exp : Experiment
  deriving DecidableEq, Repr

/-- The `_stop` ensurer body in non-debug mode (lightfield.py lines 218-223):
`self.experiment.Stop()`, then `while self.experiment.IsRunning: time.sleep(0.1)`.
The loop polls `IsRunning` until it reads `False`; the final poll that exits
the loop always observes `False`. -/
def lfStopWait (e : Experiment) : Experiment × List HWEvent :=
  ({ e with running := false, stopDelay := 0 },
    .lfStop :: (List.replicate e.stopDelay (.lfPollRunning true) ++ [.lfPollRunning false]))

/-- The `_ensure` ensurer (lightfield.py lines 213-216). -/
def lfEnsure (debug launched : Bool) : Except String Unit :=
  if ¬debug ∧ ¬launched then .error "You have to launch Lightfield first." else .ok ()

/-- `set_bgfile` (lightfield.py lines 76-80), the `post_set` hook of the
`integration` param: `SetValue(...BackgroundCorrectionReferenceFile, ".../{v}.spe")`
followed by `if not self.experiment.IsReadyToRun: raise Exception(...)`. -/
def lfSetBgfile (e : Experiment) (v : Int) : Except String Unit × List HWEvent :=
  (if e.bgFileOk then .ok () else .error "A background file doesn\x27t exist",
    [.lfSetBgFile v])

/-- The `integration` param setter produced by `make_param("integration", 300,
ShutterTimingExposureTime, post_set=set_bgfile)` (lightfield.py lines 48-62),
including its `@self._ensure` and `@self._stop` decorators (applied bottom-up,
so the call order is `_ensure`, then `_stop`, then the body).
Result `.ok (some v)` is the debug branch `return value`; `.ok none` is the
non-debug fall-through `return None`. -/
def lfIntegrationSet (debug : Bool) (p : LFPiece) (v : Int) :
    Except String (Option Int) × LFPiece × List HWEvent :=
  match lfEnsure debug p.launched with
  | .error msg => (.error msg, p, [])
  | .ok () =>
    -- _stop ensurer: only acts in non-debug mode
    let s1 := if debug then (p.exp, ([] : List HWEvent)) else lfStopWait p.exp
    let p1 := { p with exp := s1.1 }
    if debug then
      -- if self.puzzle.debug: return value
      (.ok (some v), p1, s1.2)
    else
      -- self.experiment.SetValue(setting, value); post_set(original_value)
      let e2 := { p1.exp with exposure := v }
      match lfSetBgfile e2 v with
      | (.ok (), t2) => (.ok none, { p1 with exp := e2 }, s1.2 ++ [.lfSetValue v] ++ t2)
      | (.error msg, t2) => (.error msg, { p1 with exp := e2 }, s1.2 ++ [.lfSetValue v] ++ t2)

/-- The `integration` param getter (lightfield.py lines 64-74), with its
`@self._ensure` and `@self._stop` decorators: in non-debug mode it stops the
acquisition, waits, and reads the value via `experiment.GetValue`. -/
def lfIntegrationGet (debug : Bool) (p : LFPiece) :
    Except String Int × LFPiece × List HWEvent :=
  match lfEnsure debug p.launched with
  | .error msg => (.error msg, p, [])
  | .ok () =>
    if debug then
      -- if self.puzzle.debug: return self[name].value
      (.ok p.integrationValue, p, [])
    else
      let s1 := lfStopWait p.exp
      (.ok s1.1.exposure, { p with exp := s1.1 }, s1.2 ++ [.lfGetValue])

/-- A framework-level write of the `integration` param: run the setter; if it
returns a value, store it; if it returns `None`, call the getter and store its
result; if it raises, propagate and store nothing. -/
def lfIntegrationSetValue (debug : Bool) (p : LFPiece) (v : Int) :
    Except String Int × LFPiece × List HWEvent :=
  match lfIntegrationSet debug p v with
  | (.error msg, p1, t) => (.error msg, p1, t)
  | (.ok (some r), p1, t) => (.ok r, { p1 with integrationValue := r }, t)
  | (.ok none, p1, t) =>
    match lfIntegrationGet debug p1 with
    | (.error msg, p2, t2) => (.error msg, p2, t ++ t2)
    | (.ok r, p2, t2) => (.ok r, { p2 with integrationValue := r }, t ++ t2)

/-- The complete hardware trace of a non-debug `integration` write on a
launched Piece, laid out explicitly: stop, polls of `IsRunning` ending with a
`False` observation, the `SetValue` with the new exposure, the background-file
`SetValue`, and (when the background file exists, so the setter did not raise)
the getter's stop/poll/`GetValue` triple. No event in this list starts,
arms, or acquires anything. -/
def lfSetExpectedTrace (p : LFPiece) (v : Int) : List HWEvent :=
  .lfStop :: List.replicate p.exp.stopDelay (.lfPollRunning true)
    ++ [.lfPollRunning false, .lfSetValue v, .lfSetBgFile v]
    ++ (if p.exp.bgFileOk then [.lfStop, .lfPollRunning false, .lfGetValue] else [])

theorem lfSetValue_trace (p : LFPiece) (v : Int) (h : p.launched = true) :
    (lfIntegrationSetValue false p v).2.2 = lfSetExpectedTrace p v := by
  obtain ⟨l, iv, ⟨r, d, ex, bg⟩⟩ := p
  subst h
  cases bg <;>
    simp [lfIntegrationSetValue, lfIntegrationSet, lfIntegrationGet, lfEnsure,
      lfStopWait, lfSetBgfile, lfSetExpectedTrace]

/-! ### thorlabs/camera.py -/

/-- Hardware-side state of the Thorlabs camera object `self.camera`:
its armed flag (toggled by `camera.arm` / `camera.disarm`) and the registers
behind the attributes the Piece touches. -/
structure Camera where
  hwArmed : Bool
  exposure_time_us : Int
  gain : Int
  roi : List Int
  deriving DecidableEq, Repr

/-- Stored values of the camera Piece's params that the claims involve. -/
structure CamParams where
  connected : Bool
  armed : Bool
  exposure : Int
  gain : Int
  roi : List Int
  deriving DecidableEq, Repr

/-- The camera Piece: its stored params, the `self.camera` attribute (present
only while connected; `none` is a missing attribute), and `self._triggered`. -/
structure CamPiece where
  params : CamParams
  camera : Option Camera
  triggered : Bool
  deriving DecidableEq, Repr

/-- `_ensure_connected` (camera.py lines 236-239):
`if not self.puzzle.debug and not self.params['connected'].value: raise`. -/
def camEnsureConnected (debug : Bool) (p : CamPiece) : Except String Unit :=
  if ¬debug ∧ ¬p.params.connected then .error "Camera not connected" else .ok ()

/-- A framework-level write of the `armed` param: the checkbox setter
(camera.py lines 73-89) behind its `@self._ensure_connected` guard, with the
returned value stored as the new param value. Note that the debug branch is
`return 1` regardless of the requested value. -/
def camArmedSetValue (debug : Bool) (p : CamPiece) (value : Bool) :
    Except String Bool × CamPiece × List HWEvent :=
  match camEnsureConnected debug p with
  | .error msg => (.error msg, p, [])
  | .ok () =>
    if debug then
      -- if self.puzzle.debug: return 1
      (.ok true, { p with params := { p.params with armed := true } }, [])
    else
      let current := p.params.armed
      if value ∧ ¬current then
        -- self.camera.arm(self["frame_buffer"].value); self._triggered = 0; return 1
        match p.camera with
        | none => (.error "AttributeError: no attribute camera", p, [])
        | some c =>
          (.ok true,
            { p with params := { p.params with armed := true },
                     camera := some { c with hwArmed := true },
                     triggered := false },
            [.camArm])
      else if ¬value ∧ current then
        -- self.camera.disarm(); self._triggered = 0; return 0
        match p.camera with
        | none => (.error "AttributeError: no attribute camera", p, [])
        | some c =>
          (.ok false,
            { p with params := { p.params with armed := false },
                     camera := some { c with hwArmed := false },
                     triggered := false },
            [.camDisarm])
      else
        -- return current_value
        (.ok current, p, [])

/-- `_ensure_disarmed` (camera.py lines 246-249):
`if self.params['armed'].value: self.params['armed'].set_value(0)`. -/
def camEnsureDisarmed (debug : Bool) (p : CamPiece) :
    Except String Unit × CamPiece × List HWEvent :=
  if p.params.armed then
    match camArmedSetValue debug p false with
    | (.error msg, p1, t) => (.error msg, p1, t)
    | (.ok _, p1, t) => (.ok (), p1, t)
  else (.ok (), p, [])

/-- The `roi` param getter (camera.py lines 141-146), guarded by
`@self._ensure_connected`: reads `self.camera.roi` in non-debug mode, and
returns the canned `[0, 0, 99, 79]` in debug mode. -/
def camRoiGet (debug : Bool) (p : CamPiece) :
    Except String (List Int) × List HWEvent :=
  match camEnsureConnected debug p with
  | .error msg => (.error msg, [])
  | .ok () =>
    if ¬debug then
      match p.camera with
      | none => (.error "AttributeError: no attribute camera", [])
      | some c => (.ok c.roi, [.camReadRoi])
    else (.ok [0, 0, 99, 79], [])

/-- A framework-level write of the `roi` param: the setter registered with
`@roi.set_setter(self)` (camera.py lines 148-153) behind its decorators
`@self._ensure_connected` then `@self._ensure_disarmed`, whose body is
`if not self.puzzle.debug: self.camera.roi = value`. The setter returns
`None`, so the framework then calls the `roi` getter and stores its result. -/
def camRoiSetValue (debug : Bool) (p : CamPiece) (value : List Int) :
    Except String (List Int) × CamPiece × List HWEvent :=
  match camEnsureConnected debug p with
  | .error msg => (.error msg, p, [])
  | .ok () =>
    match camEnsureDisarmed debug p with
    | (.error msg, p1, t1) => (.error msg, p1, t1)
    | (.ok (), p1, t1) =>
      let body : Except String Unit × CamPiece × List HWEvent :=
        if ¬debug then
          match p1.camera with
          | none => (.error "AttributeError: no attribute camera", p1, [])
          | some c =>
            (.ok (), { p1 with camera := some { c with roi := value } }, [.camAssignRoi value])
        else (.ok (), p1, [])
      match body with
      | (.error msg, p2, t2) => (.error msg, p2, t1 ++ t2)
      | (.ok (), p2, t2) =>
        match camRoiGet debug p2 with
        | (.error msg, t3) => (.error msg, p2, t1 ++ t2 ++ t3)
        | (.ok r, t3) =>
          (.ok r, { p2 with params := { p2.params with roi := r } }, t1 ++ t2 ++ t3)

/-- The `exposure` param getter (camera.py lines 103-109), guarded by
`@self._ensure_connected`: the debug branch returns the stored param value,
otherwise it reads `self.camera.exposure_time_us / 1000` (integer precision
in this model). -/
def camExposureGet (debug : Bool) (p : CamPiece) :
    Except String Int × CamPiece × List HWEvent :=
  match camEnsureConnected debug p with
  | .error msg => (.error msg, p, [])
  | .ok () =>
    if debug then (.ok p.params.exposure, p, [])
    else
      match p.camera with
      | none => (.error "AttributeError: no attribute camera", p, [])
      | some c => (.ok (c.exposure_time_us / 1000), p, [.camReadExposure])

/-- A framework-level write of the `exposure` param (camera.py lines 92-98):
the spinbox setter behind `@self._ensure_connected`, whose non-debug body is
`self.camera.exposure_time_us = int(value*1000)` with no other steps - in
particular there is no stop, disarm, arm, or trigger around the write. The
non-debug body returns `None`, so the framework calls the exposure getter and
stores its result. -/
def camExposureSetValue (debug : Bool) (p : CamPiece) (v : Int) :
    Except String Int × CamPiece × List HWEvent :=
  match camEnsureConnected debug p with
  | .error msg => (.error msg, p, [])
  | .ok () =>
    if debug then
      -- if self.puzzle.debug: return value
      (.ok v, { p with params := { p.params with exposure := v } }, [])
    else
      match p.camera with
      | none => (.error "AttributeError: no attribute camera", p, [])
      | some c =>
        let p1 := { p with camera := some { c with exposure_time_us := v * 1000 } }
        match camExposureGet false p1 with
        | (.error msg, p2, t2) => (.error msg, p2, [.camSetExposure (v * 1000)] ++ t2)
        | (.ok r, p2, t2) =>
          (.ok r, { p2 with params := { p2.params with exposure := r } },
            [.camSetExposure (v * 1000)] ++ t2)

/-- Walks a trace tracking the camera's armed state (flipped by `camArm` /
`camDisarm`) and checks that every `camAssignRoi` event happens while the
camera is disarmed. -/
def roiWritesDisarmed : Bool → List HWEvent → Bool
  | _, [] => true
  | armedState, e :: rest =>
    match e with
    | .camAssignRoi _ => (¬armedState) && roiWritesDisarmed armedState rest
    | .camArm => roiWritesDisarmed true rest
    | .camDisarm => roiWritesDisarmed false rest
    | _ => roiWritesDisarmed armedState rest

/-! ### thorlabs/apt_piezo.py -/

/-- The piezo Piece state that the channel params read: the `_ensure`
condition (`'apt' in self.puzzle.globals and hasattr(self, 'motor')`,
_apt_base.py lines 109-115, collapsed into one flag) and the stored value of
the channel's param (`self[name].value`). -/
structure PiezoPiece where
  connected : Bool
  storedVal : Int
  deriving DecidableEq, Repr

/-- The `set_value` setter created by `make_channel(name, i)` (apt_piezo.py
lines 98-116) behind its `@self._ensure` guard. `errSC` and `errMv` are the
error codes the APT library returns from `PZMOT_SetChannel` and
`PZMOT_MoveAbsoluteStepsEx`; a nonzero code makes the Python raise.
`.ok (some v)` is the debug `return value`; `.ok none` is a bare `return`. -/
def aptChannelSet (debug : Bool) (p : PiezoPiece) (i v : Int) (errSC errMv : Int) :
    Except String (Option Int) × List HWEvent :=
  if ¬debug ∧ ¬p.connected then (.error "Motor not connected", [])
  else if debug then
    -- if self.puzzle.debug: return value
    (.ok (some v), [])
  else if p.storedVal = v then
    -- APT crashes if you try to set a value that is already set...
    (.ok none, [])
  else
    -- set_channel(): PZMOT_SetChannel(serial, i); raise on nonzero error code
    let t1 : List HWEvent := [.aptSetChannel i errSC]
    if errSC ≠ 0 then (.error "Failed to select channel", t1)
    else
      -- PZMOT_MoveAbsoluteStepsEx(serial, value, True); raise on nonzero error code
      let t2 := t1 ++ [.aptMoveAbs v errMv]
      if errMv ≠ 0 then (.error "Failed to move the piezo", t2)
      else (.ok none, t2)

/-- The `get_value` getter created by `make_channel(name, i)` (apt_piezo.py
lines 118-134) behind its `@self._ensure` guard. `pos` is the position the
controller reports through `byref(pos)`. -/
def aptChannelGet (debug : Bool) (p : PiezoPiece) (i : Int) (errSC errGP pos : Int) :
    Except String Int × List HWEvent :=
  if ¬debug ∧ ¬p.connected then (.error "Motor not connected", [])
  else if debug then
    -- if self.puzzle.debug: return self[name].value or 0
    (.ok p.storedVal, [])
  else
    let t1 : List HWEvent := [.aptSetChannel i errSC]
    if errSC ≠ 0 then (.error "Failed to select channel", t1)
    else
      let t2 := t1 ++ [.aptGetPos errGP]
      if errGP ≠ 0 then (.error "Failed to get the piezo value", t2)
      else (.ok pos, t2)

/-- A framework-level write of a channel param: run the setter; when it
returns `None` (every non-debug path that does not raise) the framework calls
the getter - whose `PZMOT_SetChannel` gets its own error code `errSC2` - and
stores its result. -/
def aptChannelSetValue (debug : Bool) (p : PiezoPiece) (i v : Int)
    (errSC errMv errSC2 errGP pos : Int) :
    Except String Int × PiezoPiece × List HWEvent :=
  match aptChannelSet debug p i v errSC errMv with
  | (.error msg, t) => (.error msg, p, t)
  | (.ok (some r), t) => (.ok r, { p with storedVal := r }, t)
  | (.ok none, t) =>
    match aptChannelGet debug p i errSC2 errGP pos with
    | (.error msg, t2) => (.error msg, p, t ++ t2)
    | (.ok r, t2) => (.ok r, { p with storedVal := r }, t ++ t2)

/-- Scans a trace remembering the previous event, and checks that every
`aptMoveAbs` and every `aptGetPos` is immediately preceded by a successful
`aptSetChannel i 0` (channel `i` selected, error code zero). -/
def aptChannelSelectedBefore (i : Int) : Option HWEvent → List HWEvent → Bool
  | _, [] => true
  | prev, e :: rest =>
    (match e with
      | .aptMoveAbs _ _ => decide (prev = some (.aptSetChannel i 0))
      | .aptGetPos _ => decide (prev = some (.aptSetChannel i 0))
      | _ => true)
    && aptChannelSelectedBefore i (some e) rest

/-! ### oceanoptics/spectrometer.py -/

/-- The position of NumPy's global random stream (`np.random`). -/
structure NumpyRandom where
  pos : Nat
  deriving DecidableEq, Repr

/-- `np.random.random(n)`: the next `n` samples of the stream, advancing it.
Float samples are modelled as opaque `Nat` codes via the ambient `stream`. -/
def npRandomBlock (stream : Nat → Nat) (r : NumpyRandom) (n : Nat) :
    List Nat × NumpyRandom :=
  ((List.range n).map (fun k => stream (r.pos + k)), ⟨r.pos + n⟩)

/-- The spectrometer Piece state: the `_ensure` condition
(`hasattr(self, 'spec')`, spectrometer.py lines 90-93), the stored `wls`
param, and the random-stream position. -/
structure SpecPiece where
  hasSpec : Bool
  wlsParam : List Nat
  rng : NumpyRandom
  deriving DecidableEq, Repr

/-- The `values` param getter (spectrometer.py lines 80-88) behind its
`@self._ensure` guard. In debug mode it stores `np.arange(100)` into the
`wls` param and returns `np.random.random(100)`; otherwise it calls
`self.spec.spectrum()`, whose result is the ambient pair
(`specWls`, `specVals`). (Note the guard's `raise("Spectrometer not
connected")` raises a string, which in Python 3 surfaces as a `TypeError` -
either way an exception propagates and nothing below runs.) -/
def specValuesGet (debug : Bool) (stream : Nat → Nat) (p : SpecPiece)
    (specWls specVals : List Nat) :
    Except String (List Nat) × SpecPiece × List HWEvent :=
  if ¬debug ∧ ¬p.hasSpec then (.error "Spectrometer not connected", p, [])
  else if debug then
    let s1 := npRandomBlock stream p.rng 100
    (.ok s1.1, { p with wlsParam := List.range 100, rng := s1.2 }, [])
  else
    -- wls, vals = self.spec.spectrum(); self.params['wls'].set_value(wls); return vals
    (.ok specVals, { p with wlsParam := specWls }, [.specSpectrum])

/-! ### holoeye/slm.py -/

/-- The SLM Piece state: whether the `slm` attribute exists. In debug mode it
never does - the debug branch of `connect` (slm.py lines 16-18) returns
without creating it. -/
structure SLMPiece where
  hasSlm : Bool
  deriving DecidableEq, Repr

/-- The `correction_file` param setter (slm.py lines 58-67) behind its
`@self._ensure` guard (which passes in debug mode). The body starts with
`window = self.slm.window()` unconditionally - there is no debug branch - so
in debug mode, where the `slm` attribute does not exist, it raises
`AttributeError` instead of returning a synthetic value. `fileExists` is
`os.path.exists(value)`. -/
def slmCorrectionFileSet (debug : Bool) (p : SLMPiece) (value : String)
    (fileExists : Bool) : Except String String × List HWEvent :=
  -- _ensure (slm.py lines 106-109): if not debug and not hasattr(self, "slm"): raise
  if ¬debug ∧ ¬p.hasSlm then (.error "SLM not connected", [])
  else if ¬p.hasSlm then
    -- window = self.slm.window() with no slm attribute
    (.error "AttributeError: no attribute slm", [])
  else if fileExists then
    (.ok value, [.slmWindowOp "loadWavefrontCompensationFile"])
  else
    (.ok "", [.slmWindowOp "clearWavefrontCompensation"])

/-! ### thorlabs/apt_stage.py -/

/-- The APT stage Piece state: the `_ensure` condition (`'apt' in
self.puzzle.globals and hasattr(self, 'motor')`, apt_stage.py lines 158-164,
collapsed into one flag; in debug mode the motor attribute never exists). -/
structure StagePiece where
  hasMotor : Bool
  deriving DecidableEq, Repr

/-- The `Home` action (apt_stage.py lines 118-124) behind its `@self._ensure`
guard (which passes in debug mode). Its debug branch is
`if self.puzzle.debug: self.param['pos'].set_value(0)` - which raises
`AttributeError` (the Piece has `params`, not `param`) - and has no `return`,
so even with that attribute present execution would continue to
`self.motor.move_home(blocking=True)`, a hardware call. -/
def aptStageHome (debug : Bool) (p : StagePiece) : Except String Unit × List HWEvent :=
  if ¬debug ∧ ¬p.hasMotor then (.error "Motor not connected", [])
  else if debug then
    -- self.param['pos'].set_value(0): AttributeError before anything else runs
    (.error "AttributeError: no attribute param", [])
  else
    -- self.motor.move_home(blocking=True); self.params['pos'].get_value()
    (.ok (), [.motorMoveHome])

/-! ## Claim theorems -/

/-- Claim C1: the code violates the claim. The claim says that with
`puzzle.debug` true every parameter setter, getter and action returns a
synthetic value without any hardware call; but in debug mode the holoeye
SLM's `correction_file` setter (which has no debug branch and dereferences
the never-created `slm` attribute) and the APT stage's `Home` action (whose
debug branch reads the nonexistent `self.param` attribute, and lacks a
`return` that would keep it away from `self.motor.move_home`) raise
`AttributeError` instead of returning a synthetic value. -/
theorem claim_C1_debug_raises_not_synthetic :
    slmCorrectionFileSet true ⟨false⟩ "" false
      = (.error "AttributeError: no attribute slm", []) ∧
    aptStageHome true ⟨false⟩ = (.error "AttributeError: no attribute param", []) :=
  ⟨rfl, rfl⟩

/-- Claim C2: in non-debug mode, every write of the Lightfield `integration`
param first calls `experiment.Stop()` and waits until a poll of
`experiment.IsRunning` observes `False`, and only then invokes
`experiment.SetValue` with the new exposure value. (On a Piece that was never
launched the write raises in the `_ensure` guard and no `SetValue` happens at
all, covered by the second conjunct.) -/
theorem claim_C2_stop_and_wait_before_setvalue (p : LFPiece) (v : Int) :
    (p.launched = true →
      ∃ rest, (lfIntegrationSetValue false p v).2.2
        = HWEvent.lfStop :: List.replicate p.exp.stopDelay (.lfPollRunning true)
            ++ (.lfPollRunning false :: .lfSetValue v :: rest)) ∧
    (p.launched = false → (lfIntegrationSetValue false p v).2.2 = []) := by
  constructor
  · intro h
    refine ⟨[.lfSetBgFile v]
      ++ (if p.exp.bgFileOk then [.lfStop, .lfPollRunning false, .lfGetValue] else []), ?_⟩
    rw [lfSetValue_trace p v h, lfSetExpectedTrace]
    simp
  · intro h
    obtain ⟨l, iv, e⟩ := p
    simp only at h
    subst h
    simp [lfIntegrationSetValue, lfIntegrationSet, lfEnsure]

/-- Witness for C2 at a concrete launched Piece. -/
theorem claim_C2_witness :
    ((⟨true, 300, ⟨true, 2, 100, true⟩⟩ : LFPiece).launched = true →
      ∃ rest, (lfIntegrationSetValue false ⟨true, 300, ⟨true, 2, 100, true⟩⟩ 500).2.2
        = HWEvent.lfStop
            :: List.replicate (⟨true, 300, ⟨true, 2, 100, true⟩⟩ : LFPiece).exp.stopDelay
                (.lfPollRunning true)
            ++ (.lfPollRunning false :: .lfSetValue 500 :: rest)) ∧
    ((⟨true, 300, ⟨true, 2, 100, true⟩⟩ : LFPiece).launched = false →
      (lfIntegrationSetValue false ⟨true, 300, ⟨true, 2, 100, true⟩⟩ 500).2.2 = []) :=
  claim_C2_stop_and_wait_before_setvalue ⟨true, 300, ⟨true, 2, 100, true⟩⟩ 500

/-- Claim C9: `check_response` raises if and only if the status code is not
200, and on a 200 it returns normally (it reads `r` and touches nothing
else, as its embedding's type shows). -/
theorem claim_C9_check_response_iff (r : HTTPResponse) :
    ((∃ msg, check_response r = .error msg) ↔ ¬(r.status_code = 200)) ∧
    (r.status_code = 200 → check_response r = .ok ()) := by
  by_cases h : r.status_code = 200 <;> simp [check_response, h]

/-- Witness for C9 at concrete 200 and non-200 responses. -/
theorem claim_C9_witness :
    (((∃ msg, check_response ⟨200, "ok"⟩ = .error msg) ↔ ¬((200 : Int) = 200)) ∧
      ((200 : Int) = 200 → check_response ⟨200, "ok"⟩ = .ok ())) ∧
    (((∃ msg, check_response ⟨404, "nope"⟩ = .error msg) ↔ ¬((404 : Int) = 200)) ∧
      ((404 : Int) = 200 → check_response ⟨404, "nope"⟩ = .ok ())) :=
  ⟨claim_C9_check_response_iff ⟨200, "ok"⟩, claim_C9_check_response_iff ⟨404, "nope"⟩⟩

/-- Counterexample to Claim C10 as stated: from an already-connected Piece
(`hasTlPM = true`), a failed `open` (result 1) leaves the Piece with
`hasTlPM = false` - not "exactly as if connect had never been called" - and
the trace shows the previously held meter was closed along the way. -/
theorem claim_C10_counterexample :
    pmConnect false ⟨true⟩ 1
      = (.error "Powermeter init failed with code 1", ⟨false⟩,
          [.pmClose, .pmOpen 1, .pmClose]) ∧
    (⟨false⟩ : PMPiece) ≠ (⟨true⟩ : PMPiece) := by
  exact ⟨rfl, by decide⟩

/-- Claim C10 as amended: in non-debug mode the `connect` setter always ends
with `hasTlPM` equal to whether the open succeeded (so after a failed open the
attribute is deleted - which equals the pre-call state only when the Piece was
not already connected), and it returns normally if and only if the open
succeeded. -/
theorem claim_C10_connect_atomicity (p : PMPiece) (res : Int) :
    (pmConnect false p res).2.1 = ⟨decide (res = 0)⟩ ∧
    ((pmConnect false p res).1 = .ok 1 ↔ res = 0) := by
  by_cases h : res = 0 <;> simp [pmConnect, h]

/-- Witness for C10's amended claim at a concrete failed open. -/
theorem claim_C10_witness :
    (pmConnect false ⟨false⟩ 3).2.1 = ⟨decide ((3 : Int) = 0)⟩ ∧
    ((pmConnect false ⟨false⟩ 3).1 = .ok 1 ↔ (3 : Int) = 0) :=
  claim_C10_connect_atomicity ⟨false⟩ 3

/-- Claim C3: for every write of the camera `roi` param (hardware armed state
assumed in sync with the `armed` param, which the Piece maintains), every
assignment to `camera.roi` in the produced trace happens while the camera is
disarmed; and in non-debug mode on a connected, armed Piece the trace is
exactly a `disarm` followed by the `roi` assignment (so the armed param was
set to 0, calling `camera.disarm()`, before `camera.roi` was assigned). -/
theorem claim_C3_roi_only_while_disarmed (debug : Bool) (p : CamPiece) (c : Camera)
    (v : List Int) (hc : p.camera = some c) (hsync : c.hwArmed = p.params.armed) :
    roiWritesDisarmed c.hwArmed (camRoiSetValue debug p v).2.2 = true ∧
    (debug = false → p.params.connected = true → p.params.armed = true →
      ∃ rest, (camRoiSetValue debug p v).2.2
        = .camDisarm :: .camAssignRoi v :: rest) := by
  obtain ⟨⟨conn, armed, expo, g, r⟩, cam, trig⟩ := p
  replace hc : cam = some c := hc
  subst hc
  obtain ⟨hwA, eus, gn, rhw⟩ := c
  replace hsync : hwA = armed := hsync
  subst hsync
  cases debug <;> cases conn <;> cases hwA <;>
    simp [camRoiSetValue, camEnsureConnected, camEnsureDisarmed, camArmedSetValue,
      camRoiGet, roiWritesDisarmed]

/-- Witness for C3 at a concrete connected, armed Piece. -/
theorem claim_C3_witness :
    roiWritesDisarmed
        (⟨true, 25000, 0, [0, 0, 9, 9]⟩ : Camera).hwArmed
        (camRoiSetValue false
          ⟨⟨true, true, 25, 0, [0, 0, 9, 9]⟩, some ⟨true, 25000, 0, [0, 0, 9, 9]⟩, false⟩
          [1, 2, 30, 40]).2.2 = true ∧
    (false = false →
      (⟨⟨true, true, 25, 0, [0, 0, 9, 9]⟩, some ⟨true, 25000, 0, [0, 0, 9, 9]⟩,
          false⟩ : CamPiece).params.connected = true →
      (⟨⟨true, true, 25, 0, [0, 0, 9, 9]⟩, some ⟨true, 25000, 0, [0, 0, 9, 9]⟩,
          false⟩ : CamPiece).params.armed = true →
      ∃ rest, (camRoiSetValue false
          ⟨⟨true, true, 25, 0, [0, 0, 9, 9]⟩, some ⟨true, 25000, 0, [0, 0, 9, 9]⟩, false⟩
          [1, 2, 30, 40]).2.2
        = .camDisarm :: .camAssignRoi [1, 2, 30, 40] :: rest) :=
  claim_C3_roi_only_while_disarmed false
    ⟨⟨true, true, 25, 0, [0, 0, 9, 9]⟩, some ⟨true, 25000, 0, [0, 0, 9, 9]⟩, false⟩
    ⟨true, 25000, 0, [0, 0, 9, 9]⟩ [1, 2, 30, 40] rfl rfl

/-- Claim C4: in every trace produced by a channel param write or read, each
`PZMOT_MoveAbsoluteStepsEx` and each `PZMOT_GetPositionSteps` is immediately
preceded by a `PZMOT_SetChannel` for that channel's index that returned error
code 0 (a failed channel selection raises before the move/read is issued). -/
theorem claim_C4_channel_selected_first (debug : Bool) (p : PiezoPiece)
    (i v errSC errMv errSC2 errGP pos : Int) :
    aptChannelSelectedBefore i none
        (aptChannelSetValue debug p i v errSC errMv errSC2 errGP pos).2.2 = true ∧
    aptChannelSelectedBefore i none
        (aptChannelGet debug p i errSC errGP pos).2 = true := by
  obtain ⟨conn, sv⟩ := p
  constructor
  · cases debug <;> cases conn <;>
      simp only [aptChannelSetValue, aptChannelSet, aptChannelGet] <;>
      split_ifs <;>
      simp_all [aptChannelSelectedBefore]
  · cases debug <;> cases conn <;>
      simp only [aptChannelGet] <;>
      split_ifs <;>
      simp_all [aptChannelSelectedBefore]

/-- Counterexample to Claim C5 as stated: on a connected and armed camera, a
non-debug write of the `exposure` param produces exactly the hardware
assignment `camera.exposure_time_us = 50000` followed by the getter's
read-back - the acquisition is neither stopped/disarmed before the exposure
change nor re-armed/restarted afterwards. -/
theorem claim_C5_counterexample :
    ((camExposureSetValue false
        ⟨⟨true, true, 25, 0, [0, 0, 9, 9]⟩, some ⟨true, 25000, 0, [0, 0, 9, 9]⟩, false⟩
        50).2.2 = [.camSetExposure 50000, .camReadExposure]) ∧
    (⟨⟨true, true, 25, 0, [0, 0, 9, 9]⟩, some ⟨true, 25000, 0, [0, 0, 9, 9]⟩,
        false⟩ : CamPiece).params.armed = true ∧
    HWEvent.camDisarm ∉ (camExposureSetValue false
        ⟨⟨true, true, 25, 0, [0, 0, 9, 9]⟩, some ⟨true, 25000, 0, [0, 0, 9, 9]⟩, false⟩
        50).2.2 ∧
    HWEvent.camArm ∉ (camExposureSetValue false
        ⟨⟨true, true, 25, 0, [0, 0, 9, 9]⟩, some ⟨true, 25000, 0, [0, 0, 9, 9]⟩, false⟩
        50).2.2 := by
  refine ⟨rfl, rfl, ?_, ?_⟩ <;> decide

/-- Claim C5 as amended: in non-debug mode the Lightfield `integration`
setter stops the acquisition and waits for it to stop before writing the new
exposure, and its complete trace (`lfSetExpectedTrace`) contains nothing that
re-arms or restarts the acquisition afterwards; the Thorlabs camera
`exposure` setter performs the bare hardware exposure write (and read-back)
with no stop before and no re-arm after. -/
theorem claim_C5_stop_without_rearm (p : LFPiece) (v : Int) (hp : p.launched = true)
    (q : CamPiece) (c : Camera) (w : Int) (hq : q.camera = some c)
    (hconn : q.params.connected = true) :
    (lfIntegrationSetValue false p v).2.2 = lfSetExpectedTrace p v ∧
    (camExposureSetValue false q w).2.2
      = [.camSetExposure (w * 1000), .camReadExposure] := by
  refine ⟨lfSetValue_trace p v hp, ?_⟩
  obtain ⟨⟨conn, armed, expo, g, r⟩, cam, trig⟩ := q
  replace hq : cam = some c := hq
  subst hq
  replace hconn : conn = true := hconn
  subst hconn
  simp [camExposureSetValue, camExposureGet, camEnsureConnected]

/-- Witness for C5's amended claim at concrete launched/connected Pieces. -/
theorem claim_C5_witness :
    (lfIntegrationSetValue false ⟨true, 300, ⟨true, 1, 100, true⟩⟩ 500).2.2
      = lfSetExpectedTrace ⟨true, 300, ⟨true, 1, 100, true⟩⟩ 500 ∧
    (camExposureSetValue false
        ⟨⟨true, false, 25, 0, [0, 0, 9, 9]⟩, some ⟨false, 25000, 0, [0, 0, 9, 9]⟩, false⟩
        50).2.2 = [.camSetExposure (50 * 1000), .camReadExposure] :=
  claim_C5_stop_without_rearm ⟨true, 300, ⟨true, 1, 100, true⟩⟩ 500 rfl
    ⟨⟨true, false, 25, 0, [0, 0, 9, 9]⟩, some ⟨false, 25000, 0, [0, 0, 9, 9]⟩, false⟩
    ⟨false, 25000, 0, [0, 0, 9, 9]⟩ 50 rfl rfl

/-- Counterexample to Claim C6 as stated: with the random stream `fun n => n`,
two successive debug-mode reads of the spectrometer `values` param from the
same starting stored state return different values (the read draws 100 fresh
samples and advances the stream). -/
theorem claim_C6_counterexample :
    (specValuesGet true (fun n => n) ⟨true, [], ⟨0⟩⟩ [] []).1
      = .ok ((List.range 100).map (fun k => 0 + k)) ∧
    (specValuesGet true (fun n => n)
        (specValuesGet true (fun n => n) ⟨true, [], ⟨0⟩⟩ [] []).2.1 [] []).1
      = .ok ((List.range 100).map (fun k => 100 + k)) ∧
    (List.range 100).map (fun k => 0 + k) ≠ (List.range 100).map (fun k => 100 + k) := by
  exact ⟨rfl, rfl, by decide⟩

/-- Claim C6 as amended: in debug mode, getters for setting parameters (here
the camera `exposure` getter) return the stored parameter value and leave the
Piece untouched, so successive reads agree; acquisition-array reads (here the
spectrometer `values` getter) instead return the next 100 samples of the
NumPy random stream and advance its position by 100, so two successive reads
generally differ. -/
theorem claim_C6_debug_reads (p : CamPiece) (q : SpecPiece) (stream : Nat → Nat)
    (sw sv : List Nat) :
    camExposureGet true p = (.ok p.params.exposure, p, []) ∧
    (specValuesGet true stream q sw sv).1
      = .ok ((List.range 100).map (fun k => stream (q.rng.pos + k))) ∧
    (specValuesGet true stream q sw sv).2.1.rng.pos = q.rng.pos + 100 := by
  refine ⟨?_, ?_, ?_⟩ <;>
    simp [camExposureGet, camEnsureConnected, specValuesGet, npRandomBlock]

/-- Claim C7: invoking a connection-guarded operation in non-debug mode while
the device is not connected raises an exception, performs no hardware call
(empty trace) and leaves the Piece's stored state unchanged; shown for the
camera `exposure` write behind `_ensure_connected`, the spectrometer `values`
read behind its `_ensure`, and the SC10 shutter `open` write behind the
serial base's `_ensure`. -/
theorem claim_C7_guard_raises_cleanly (armed trig : Bool) (expo g : Int)
    (r : List Int) (cam : Option Camera) (v : Int) (wls : List Nat) (rp : Nat)
    (stream : Nat → Nat) (sw sv : List Nat) (dev : SC10Device) (value : Bool) :
    camExposureSetValue false ⟨⟨false, armed, expo, g, r⟩, cam, trig⟩ v
      = (.error "Camera not connected", ⟨⟨false, armed, expo, g, r⟩, cam, trig⟩, []) ∧
    specValuesGet false stream ⟨false, wls, ⟨rp⟩⟩ sw sv
      = (.error "Spectrometer not connected", ⟨false, wls, ⟨rp⟩⟩, []) ∧
    sc10OpenSet false false dev value = (.error "Shutter not connected", dev, []) := by
  refine ⟨?_, ?_, ?_⟩ <;>
    simp [camExposureSetValue, camEnsureConnected, specValuesGet, sc10OpenSet]

/-- Claim C8: for the SC10 `open` setter in non-debug mode (port connected),
the toggle command `b'ens\x5cr'` is written exactly when the state the device
reports differs from the requested value, the setter returns the requested
value in both cases, and the device ends in the requested state. -/
theorem claim_C8_toggle_iff_differs (dev : SC10Device) (value : Bool) :
    (HWEvent.serialWrite "ens\r" ∈ (sc10OpenSet false true dev value).2.2
      ↔ dev.enabled ≠ value) ∧
    (sc10OpenSet false true dev value).1 = .ok value ∧
    (sc10OpenSet false true dev value).2.1.enabled = value := by
  obtain ⟨en⟩ := dev
  cases en <;> cases value <;> exact ⟨by decide, rfl, rfl⟩

/-- Witness for C8 at a concrete device state: shutter open, close requested. -/
theorem claim_C8_witness :
    (HWEvent.serialWrite "ens\r" ∈ (sc10OpenSet false true ⟨true⟩ false).2.2
      ↔ (⟨true⟩ : SC10Device).enabled ≠ false) ∧
    (sc10OpenSet false true ⟨true⟩ false).1 = .ok false ∧
    (sc10OpenSet false true ⟨true⟩ false).2.1.enabled = false :=
  claim_C8_toggle_iff_differs ⟨true⟩ false

end PzpHardware
